import Mathlib

/-!
Shallow embedding of the CEP fetch pipeline (case-data-engineer repository).

Time is modelled in centiseconds (`Nat`): the 0.2 s sleep in
`consultar_cep` is `20`, the 1.05 s minimum interval of the rate gate is
`105`, and the retry backoff waits of 2 s, 4 s, … are `200`, `400`, ….
Python strings are Lean `String`s; the handful of string operations the
source uses (`replace` of a single character by nothing, `strip`,
`lower`, substring test) are implemented below over `List Char` so that
they reduce by `decide` / `rfl`.
-/

/-- Remove every occurrence of character `c` from a character list.
Embeds Python `s.replace(x, "")` for a one-character pattern `x`. -/
def removeAll (c : Char) : List Char → List Char
  | [] => []
  | x :: xs => if x == c then removeAll c xs else x :: removeAll c xs

/-- Drop leading and trailing whitespace. Embeds Python `s.strip()`. -/
def stripChars (l : List Char) : List Char :=
  ((l.dropWhile Char.isWhitespace).reverse.dropWhile Char.isWhitespace).reverse

/-- Lower-case a string (ASCII letters; the accented letters appearing in
the source messages are already lower case). Embeds Python `s.lower()`. -/
def lowerStr (s : String) : String :=
  ⟨s.data.map Char.toLower⟩

/-- Boolean test that `pat` begins `l`. -/
def listStartsWith : List Char → List Char → Bool
  | [], _ => true
  | _ :: _, [] => false
  | a :: as, b :: bs => a == b && listStartsWith as bs

/-- Boolean test that `pat` occurs contiguously inside `l`.
Embeds Python `pat in s`. -/
def listContainsSub (pat : List Char) : List Char → Bool
  | [] => listStartsWith pat []
  | c :: rest => listStartsWith pat (c :: rest) || listContainsSub pat rest

/-- String version of `listStartsWith`. -/
def strStartsWith (pat s : String) : Bool :=
  listStartsWith pat.data s.data

/-- String version of `listContainsSub`: Python `pat in s`. -/
def strContainsSub (pat s : String) : Bool :=
  listContainsSub pat.data s.data

/-!  ## src/get_cep_info.py  -/

/-- Observable effects of one `consultar_cep` call: a sleep (duration in
centiseconds), an acquisition of the rate gate (`aguardar_permissao_api`
from `src/rate_limit.py`), or the start of one outbound HTTP attempt. -/
inductive Event where
  | sleep (centis : Nat)
  | rateGate
  | httpAttempt (url : String)
deriving DecidableEq, Repr

/-- Is the event a rate-gate acquisition? -/
def Event.isRateGate : Event → Bool
  | .rateGate => true
  | _ => false

/-- Is the event the start of an outbound HTTP attempt? -/
def Event.isHttpAttempt : Event → Bool
  | .httpAttempt _ => true
  | _ => false

/-- What the network returns for one HTTP attempt: either a response
(status code, the body-level `erro` flag of the ViaCEP JSON, and the flat
address payload), or a transport-level exception with message text. -/
inductive NetOutcome where
  | resp (status : Nat) (erro : Bool) (dados : List (String × String))
  | exc (msg : String)
deriving DecidableEq, Repr

/-- The HTTP statuses the session created by `_criar_sessao` retries
(`status_forcelist=[429, 500, 502, 503, 504]`). -/
def forcelist : List Nat := [429, 500, 502, 503, 504]

/-- `total=5` in the `Retry` configuration of `_criar_sessao`: at most
five extra attempts after the first. -/
def retry_total : Nat := 5

/-- Backoff wait in centiseconds before retry number `i + 1`
(`backoff_factor=2`: 2 s, 4 s, 8 s, 16 s, 32 s). -/
def backoff_wait (i : Nat) : Nat := 200 * 2 ^ i

/-- Reason text of the final retry-exhaustion error: for a transient
status, the urllib3 `ResponseError` text naming the last observed status;
for a transport exception, the exception message itself. -/
def excReason : NetOutcome → String
  | .resp s _ _ => "ResponseError(too many " ++ toString s ++ " error responses)"
  | .exc m => m

/-- One successful (returned, not raised) HTTP response. -/
structure HttpResp where
  status : Nat
  erro : Bool
  dados : List (String × String)
deriving DecidableEq, Repr

/-- The retry loop of the session built by `_criar_sessao`
(requests `HTTPAdapter` with `Retry(total=5, backoff_factor=2,
status_forcelist=[429,500,502,503,504])`): attempt `i` is answered by
`attempts i`; a forcelisted status or a transport exception is retried
after a backoff sleep while retries remain, and raises a
max-retries-exceeded error once they are exhausted; any other response is
returned to the caller. -/
def sessionGetAux (attempts : Nat → NetOutcome) (url : String) :
    Nat → Nat → List Event × Except String HttpResp
  | i, 0 =>
    match attempts i with
    | .resp s e d =>
      if forcelist.contains s then
        ([Event.httpAttempt url],
         Except.error ("Max retries exceeded with url: " ++ url ++
           " (Caused by " ++ excReason (attempts i) ++ ")"))
      else
        ([Event.httpAttempt url], Except.ok ⟨s, e, d⟩)
    | .exc _ =>
      ([Event.httpAttempt url],
       Except.error ("Max retries exceeded with url: " ++ url ++
         " (Caused by " ++ excReason (attempts i) ++ ")"))
  | i, n + 1 =>
    match attempts i with
    | .resp s e d =>
      if forcelist.contains s then
        let r := sessionGetAux attempts url (i + 1) n
        (Event.httpAttempt url :: Event.sleep (backoff_wait i) :: r.1, r.2)
      else
        ([Event.httpAttempt url], Except.ok ⟨s, e, d⟩)
    | .exc _ =>
      let r := sessionGetAux attempts url (i + 1) n
      (Event.httpAttempt url :: Event.sleep (backoff_wait i) :: r.1, r.2)

/-- `session.get(url, timeout=15)` on the shared session: the retry loop
starting at attempt `0` with `retry_total` retries remaining. -/
def sessionGet (attempts : Nat → NetOutcome) (url : String) :
    List Event × Except String HttpResp :=
  sessionGetAux attempts url 0 retry_total

/-- Embeds `_validar_input_cep` (src/get_cep_info.py): remove dashes and
dots, strip surrounding whitespace, and accept exactly when the result is
eight decimal digits, returning the cleaned CEP. -/
def _validar_input_cep (cep_raw : String) : Option String :=
  let cep_limpo : List Char := stripChars (removeAll '.' (removeAll '-' cep_raw.data))
  if cep_limpo.length == 8 && cep_limpo.all Char.isDigit then
    some ⟨cep_limpo⟩
  else
    none

/-- The outcome record built by `consultar_cep`: keys `cep`, `status`
(`"sucesso"` or `"erro"`), `dados`, `mensagem`. -/
structure Resultado where
  cep : String
  status : String
  dados : Option (List (String × String))
  mensagem : String
deriving DecidableEq, Repr

/-- Embeds `consultar_cep` (src/get_cep_info.py), with the network
abstracted as `attempts`: sleep 0.2 s, validate the raw CEP (invalid
format short-circuits with no outbound call), then issue the GET through
the retrying session; a 200 response with the body `erro` flag is "CEP
inválido ou inexistente.", a 200 response without it is success carrying
the payload, any other returned status is "Erro HTTP <status>", and any
raised exception is caught into "Erro de conexão: <text>". The first
component is the trace of observable events. -/
def consultar_cep (attempts : Nat → NetOutcome) (cep : String) :
    List Event × Resultado :=
  match _validar_input_cep cep with
  | none =>
    ([Event.sleep 20],
     ⟨cep, "erro", none,
      "Formato inválido: CEP deve conter exatamente 8 dígitos numéricos."⟩)
  | some cep_valido =>
    let url := "https://viacep.com.br/ws/" ++ cep_valido ++ "/json/"
    match sessionGet attempts url with
    | (evs, Except.error e) =>
      (Event.sleep 20 :: evs, ⟨cep, "erro", none, "Erro de conexão: " ++ e⟩)
    | (evs, Except.ok r) =>
      if r.status == 200 then
        if r.erro then
          (Event.sleep 20 :: evs, ⟨cep, "erro", none, "CEP inválido ou inexistente."⟩)
        else
          (Event.sleep 20 :: evs, ⟨cep, "sucesso", some r.dados, ""⟩)
      else
        (Event.sleep 20 :: evs,
         ⟨cep, "erro", none, "Erro HTTP " ++ toString r.status⟩)

/-!  ## src/rate_limit.py  -/

/-- `_INTERVALO_MINIMO = 1.05` seconds, in centiseconds. -/
def _INTERVALO_MINIMO : Nat := 105

/-- Embeds `aguardar_permissao_api` (src/rate_limit.py): given the time
of the last permitted access and the current monotonic instant, sleep for
the remainder of the minimum interval when needed and record the new last
access; returns (wait slept, new last-access instant). Never called by
`consultar_cep`. -/
def aguardar_permissao_api (ultimo_acesso agora : Nat) : Nat × Nat :=
  if agora - ultimo_acesso < _INTERVALO_MINIMO then
    let espera := _INTERVALO_MINIMO - (agora - ultimo_acesso)
    (espera, agora + espera)
  else
    (0, agora)

/-!  ## src/export_data.py  -/

/-- Embeds `_categorizar_erro` (src/export_data.py): case-insensitive
substring match on the error message, in priority order — "inválido" →
CEP_INVALIDO, "inexistente" → CEP_INEXISTENTE, "conexão" or "http" →
ERRO_CONEXAO, otherwise OUTRO. -/
def _categorizar_erro (mensagem : String) : String :=
  if strContainsSub "inválido" (lowerStr mensagem) then
    "CEP_INVALIDO"
  else if strContainsSub "inexistente" (lowerStr mensagem) then
    "CEP_INEXISTENTE"
  else if strContainsSub "conexão" (lowerStr mensagem) || strContainsSub "http" (lowerStr mensagem) then
    "ERRO_CONEXAO"
  else
    "OUTRO"

/-!  ## src/data_transformation.py  -/

/-- One row of the normalized success table: the `cep` column and the
remaining (non-key) columns as an opaque tuple of values. -/
structure Row where
  cep : String
  resto : List String
deriving DecidableEq, Repr

/-- Rows of `df` whose `cep` occurs more than once — pandas
`df.duplicated(subset=["cep"], keep=False)` selection. -/
def ceps_duplicados (df : List Row) : List Row :=
  df.filter (fun r => 2 ≤ df.countP (fun x => x.cep == r.cep))

/-- The inconsistency alerts of `_validar_ceps_duplicados`: one per
duplicated `cep` whose rows do not all agree on the non-key columns
(`drop_duplicates` of the group leaves more than one distinct row). -/
def alertas_inconsistencia (df : List Row) : List String :=
  (((ceps_duplicados df).map Row.cep).dedup).filterMap (fun c =>
    let grupo := (ceps_duplicados df).filter (fun r => r.cep == c)
    if 2 ≤ (grupo.map Row.resto).dedup.length then
      some ("[ALERTA] CEP " ++ c ++ " possui dados inconsistentes em múltiplos registros. Mantendo primeiro.")
    else
      none)

/-- pandas `drop_duplicates(subset=["cep"], keep="first")`: keep a row
exactly when no earlier row has the same `cep`. -/
def drop_duplicates_cep (seen : List String) : List Row → List Row
  | [] => []
  | r :: rs =>
    if seen.contains r.cep then
      drop_duplicates_cep seen rs
    else
      r :: drop_duplicates_cep (r.cep :: seen) rs

/-- Embeds `_validar_ceps_duplicados` (src/data_transformation.py):
returns the deduplicated table (first occurrence of each `cep` kept)
together with the emitted warnings — the per-CEP inconsistency alerts,
then the removed-duplicates alert when any row was dropped. -/
def _validar_ceps_duplicados (df : List Row) : List Row × List String :=
  let df_processado := drop_duplicates_cep [] df
  let num_duplicatas := df.length - df_processado.length
  let avisos :=
    alertas_inconsistencia df ++
      (if 0 < num_duplicatas then
        ["[ALERTA] Removidas " ++ toString num_duplicatas ++ " duplicata(s) de CEP."]
      else
        [])
  (df_processado, avisos)

/-!  ## src/database.py  -/

/-- Embeds `inserir_dados` (src/database.py) against an existing
`enderecos` table (schema creation is out of this function; it raises
before reaching the table when the database file is absent): read the
stored `cep`s, keep only incoming rows whose `cep` is not stored yet,
append them, and report the skipped count. Appending a batch that
repeats a `cep` internally violates the UNIQUE constraint on `cep` and
raises. Returns the new table and the skipped count, or the error. -/
def inserir_dados (enderecos : List Row) (df : List Row) :
    Except String (List Row × Nat) :=
  let ceps_existentes := enderecos.map Row.cep
  let df_novos := df.filter (fun r => !ceps_existentes.contains r.cep)
  let num_duplicados := df.length - df_novos.length
  if (df_novos.map Row.cep).Nodup then
    Except.ok (enderecos ++ df_novos, num_duplicados)
  else
    Except.error "UNIQUE constraint failed: enderecos.cep"

/-!  ## src/etl.py  -/

/-- The exceptions `_validar_entrada` may raise. -/
inductive EtlErro where
  | valueError (msg : String)
  | fileNotFoundError (msg : String)
deriving DecidableEq, Repr

/-- Embeds `_validar_entrada` (src/etl.py): `tamanho_amostra` must be
positive and at most 1,000,000 (ValueError otherwise), and the input
file must exist (FileNotFoundError otherwise); the filesystem is
abstracted as the flag `arquivo_existe`. -/
def _validar_entrada (tamanho_amostra : Int) (caminho_arquivo : String)
    (arquivo_existe : Bool) : Except EtlErro Unit :=
  if tamanho_amostra ≤ 0 then
    Except.error (EtlErro.valueError
      ("tamanho_amostra deve ser > 0, recebido: " ++ toString tamanho_amostra))
  else if 1000000 < tamanho_amostra then
    Except.error (EtlErro.valueError
      ("tamanho_amostra muito grande (máx: 1000000), recebido: " ++ toString tamanho_amostra))
  else if !arquivo_existe then
    Except.error (EtlErro.fileNotFoundError
      ("Arquivo não encontrado: " ++ caminho_arquivo))
  else
    Except.ok ()

/-- The fetch-all step of `executar_pipeline` (src/etl.py):
`executor.map(consulta_fn, ceps)` over the thread pool returns the
results in the order of `ceps`; the network oracle is per key. -/
def pipeline_fetch (attempts : String → Nat → NetOutcome) (ceps : List String) :
    List Resultado :=
  ceps.map (fun c => (consultar_cep (attempts c) c).2)

/-- Coarse observable effects of `executar_pipeline` beyond validation. -/
inductive PipeEffect where
  | garantirDiretorio (caminho : String)
  | limparArquivosSaida (caminho : String)
  | criarBanco
  | consulta (cep : String)
  | inserirDados
  | exportar
deriving DecidableEq, Repr

/-- Embeds the control flow of `executar_pipeline` (src/etl.py) up to its
effects: `_validar_entrada` runs first and a validation error propagates
before any storage or network activity; otherwise the output directory is
prepared, the database is recreated, every loaded `cep` is queried, and
the results are persisted and exported. The loaded key list and the
per-key network oracle abstract `carregar_lista_cep` and the HTTP layer. -/
def executar_pipeline (tamanho_amostra : Int) (caminho_arquivo : String)
    (arquivo_existe : Bool) (ceps : List String)
    (attempts : String → Nat → NetOutcome) :
    List PipeEffect × Except EtlErro (List Resultado) :=
  match _validar_entrada tamanho_amostra caminho_arquivo arquivo_existe with
  | Except.error e => ([], Except.error e)
  | Except.ok _ =>
    ([PipeEffect.garantirDiretorio "data/output/",
      PipeEffect.limparArquivosSaida "data/output/",
      PipeEffect.criarBanco] ++
      ceps.map PipeEffect.consulta ++
      [PipeEffect.inserirDados, PipeEffect.exportar],
     Except.ok (pipeline_fetch attempts ceps))

/-!  ## Concrete network oracles used by witnesses  -/

/-- Oracle answering every attempt with a plain 200 success response. -/
def oracle200 : Nat → NetOutcome :=
  fun _ => NetOutcome.resp 200 false [("logradouro", "Praça da Sé"), ("uf", "SP")]

/-- Oracle answering every attempt with a 200 response whose body carries
the ViaCEP `erro` flag (the service's not-found indicator). -/
def oracleNotFound : Nat → NetOutcome :=
  fun _ => NetOutcome.resp 200 true []

/-- Oracle answering every attempt with HTTP status 500. -/
def oracle500 : Nat → NetOutcome :=
  fun _ => NetOutcome.resp 500 false []

/-- Oracle raising a transport-level exception on every attempt. -/
def oracleTimeout : Nat → NetOutcome :=
  fun _ => NetOutcome.exc "HTTPSConnectionPool: Read timed out."

/-!  ## Helper lemmas  -/

theorem listStartsWith_append (p r : List Char) :
    listStartsWith p (p ++ r) = true := by
  induction p with
  | nil => rfl
  | cons a as ih => simp [listStartsWith, ih]

theorem listContainsSub_of_startsWith (p l : List Char)
    (h : listStartsWith p l = true) : listContainsSub p l = true := by
  cases l with
  | nil => simpa [listContainsSub] using h
  | cons c rest => simp [listContainsSub, h]

theorem listContainsSub_append_mid (x p y : List Char) :
    listContainsSub p (x ++ (p ++ y)) = true := by
  induction x with
  | nil =>
    exact listContainsSub_of_startsWith _ _ (listStartsWith_append p y)
  | cons c cs ih => simp [listContainsSub, ih]

theorem strStartsWith_append (p r : String) :
    strStartsWith p (p ++ r) = true := by
  simpa [strStartsWith, String.data_append] using
    listStartsWith_append p.data r.data

/-- The trace of the retrying session consists only of attempts at the
given URL and backoff sleeps. -/
theorem sessionGetAux_events (attempts : Nat → NetOutcome) (url : String) :
    ∀ n i, ∀ e ∈ (sessionGetAux attempts url i n).1,
      e = Event.httpAttempt url ∨ ∃ k, e = Event.sleep k := by
  intro n
  induction n with
  | zero =>
    intro i e he
    cases h : attempts i with
    | resp s er d =>
      simp only [sessionGetAux, h] at he
      split at he <;> (simp at he; exact Or.inl he)
    | exc m =>
      simp only [sessionGetAux, h] at he
      simp at he
      exact Or.inl he
  | succ n ih =>
    intro i e he
    cases h : attempts i with
    | resp s er d =>
      simp only [sessionGetAux, h] at he
      split at he
      · simp only [List.mem_cons] at he
        rcases he with rfl | rfl | he
        · exact Or.inl rfl
        · exact Or.inr ⟨_, rfl⟩
        · exact ih (i + 1) e he
      · simp at he
        exact Or.inl he
    | exc m =>
      simp only [sessionGetAux, h, List.mem_cons] at he
      rcases he with rfl | rfl | he
      · exact Or.inl rfl
      · exact Or.inr ⟨_, rfl⟩
      · exact ih (i + 1) e he

/-- `consultar_cep` on a malformed key: no outbound attempt, the
invalid-format outcome. -/
theorem consultar_cep_eq_invalido (attempts : Nat → NetOutcome) (cep : String)
    (hv : _validar_input_cep cep = none) :
    consultar_cep attempts cep =
      ([Event.sleep 20],
       ⟨cep, "erro", none,
        "Formato inválido: CEP deve conter exatamente 8 dígitos numéricos."⟩) := by
  unfold consultar_cep
  simp [hv]

/-- `consultar_cep` when the retrying session raises: the caught
connection-error outcome. -/
theorem consultar_cep_eq_conexao (attempts : Nat → NetOutcome)
    (cep c : String) (evs : List Event) (err : String)
    (hv : _validar_input_cep cep = some c)
    (hs : sessionGet attempts ("https://viacep.com.br/ws/" ++ c ++ "/json/") =
      (evs, Except.error err)) :
    consultar_cep attempts cep =
      (Event.sleep 20 :: evs, ⟨cep, "erro", none, "Erro de conexão: " ++ err⟩) := by
  unfold consultar_cep
  simp [hv, hs]

/-- `consultar_cep` on a 200 response carrying the body `erro` flag: the
not-found outcome. -/
theorem consultar_cep_eq_inexistente (attempts : Nat → NetOutcome)
    (cep c : String) (evs : List Event) (d : List (String × String))
    (hv : _validar_input_cep cep = some c)
    (hs : sessionGet attempts ("https://viacep.com.br/ws/" ++ c ++ "/json/") =
      (evs, Except.ok ⟨200, true, d⟩)) :
    consultar_cep attempts cep =
      (Event.sleep 20 :: evs, ⟨cep, "erro", none, "CEP inválido ou inexistente."⟩) := by
  unfold consultar_cep
  simp [hv, hs]

/-- `consultar_cep` on a clean 200 response: the success outcome with the
payload. -/
theorem consultar_cep_eq_sucesso (attempts : Nat → NetOutcome)
    (cep c : String) (evs : List Event) (d : List (String × String))
    (hv : _validar_input_cep cep = some c)
    (hs : sessionGet attempts ("https://viacep.com.br/ws/" ++ c ++ "/json/") =
      (evs, Except.ok ⟨200, false, d⟩)) :
    consultar_cep attempts cep =
      (Event.sleep 20 :: evs, ⟨cep, "sucesso", some d, ""⟩) := by
  unfold consultar_cep
  simp [hv, hs]

/-- `consultar_cep` on a returned non-200 status: the HTTP-error
outcome. -/
theorem consultar_cep_eq_http (attempts : Nat → NetOutcome)
    (cep c : String) (evs : List Event) (st : Nat) (er : Bool)
    (d : List (String × String))
    (hv : _validar_input_cep cep = some c)
    (hs : sessionGet attempts ("https://viacep.com.br/ws/" ++ c ++ "/json/") =
      (evs, Except.ok ⟨st, er, d⟩))
    (hne : st ≠ 200) :
    consultar_cep attempts cep =
      (Event.sleep 20 :: evs, ⟨cep, "erro", none, "Erro HTTP " ++ toString st⟩) := by
  unfold consultar_cep
  simp [hv, hs, hne]

/-- The `cep` field of the outcome is always the raw input key. -/
theorem consultar_cep_cep_eq (attempts : Nat → NetOutcome) (cep : String) :
    ((consultar_cep attempts cep).2).cep = cep := by
  cases hv : _validar_input_cep cep with
  | none => rw [consultar_cep_eq_invalido attempts cep hv]
  | some c =>
    rcases hs : sessionGet attempts ("https://viacep.com.br/ws/" ++ c ++ "/json/")
      with ⟨evs, r⟩
    cases r with
    | error err => rw [consultar_cep_eq_conexao attempts cep c evs err hv hs]
    | ok resp =>
      rcases resp with ⟨st, er, d⟩
      by_cases h200 : st = 200
      · subst h200
        cases er
        · rw [consultar_cep_eq_sucesso attempts cep c evs d hv hs]
        · rw [consultar_cep_eq_inexistente attempts cep c evs d hv hs]
      · rw [consultar_cep_eq_http attempts cep c evs st er d hv hs h200]

/-- Every event of a `consultar_cep` trace is a sleep or an attempt at
the URL built from the cleaned key. -/
theorem consultar_cep_events (attempts : Nat → NetOutcome) (cep : String) :
    ∀ e ∈ (consultar_cep attempts cep).1,
      (∃ k, e = Event.sleep k) ∨
      ∃ c, _validar_input_cep cep = some c ∧
        e = Event.httpAttempt ("https://viacep.com.br/ws/" ++ c ++ "/json/") := by
  intro e he
  cases hv : _validar_input_cep cep with
  | none =>
    rw [consultar_cep_eq_invalido attempts cep hv] at he
    simp only [List.mem_singleton] at he
    exact Or.inl ⟨20, he⟩
  | some c =>
    rcases hs : sessionGet attempts ("https://viacep.com.br/ws/" ++ c ++ "/json/")
      with ⟨evs, r⟩
    have hmem : e ∈ Event.sleep 20 :: evs := by
      cases r with
      | error err =>
        rw [consultar_cep_eq_conexao attempts cep c evs err hv hs] at he
        exact he
      | ok resp =>
        rcases resp with ⟨st, er, d⟩
        by_cases h200 : st = 200
        · subst h200
          cases er
          · rw [consultar_cep_eq_sucesso attempts cep c evs d hv hs] at he
            exact he
          · rw [consultar_cep_eq_inexistente attempts cep c evs d hv hs] at he
            exact he
        · rw [consultar_cep_eq_http attempts cep c evs st er d hv hs h200] at he
          exact he
    rcases List.mem_cons.mp hmem with rfl | hevs
    · exact Or.inl ⟨20, rfl⟩
    · have hev := sessionGetAux_events attempts
        ("https://viacep.com.br/ws/" ++ c ++ "/json/") retry_total 0 e
        (by
          have : evs = (sessionGet attempts ("https://viacep.com.br/ws/" ++ c ++ "/json/")).1 := by
            rw [hs]
          rw [this] at hevs
          exact hevs)
      rcases hev with rfl | ⟨k, rfl⟩
      · exact Or.inr ⟨c, rfl, rfl⟩
      · exact Or.inl ⟨k, rfl⟩

theorem listContainsSub_append_left (x p l : List Char)
    (h : listContainsSub p l = true) : listContainsSub p (x ++ l) = true := by
  induction x with
  | nil => exact h
  | cons c cs ih => simp [listContainsSub, ih]

/-- When every attempt raises a transport exception, the retrying
session ends in a raised error. -/
theorem sessionGetAux_error_of_exc (attempts : Nat → NetOutcome) (url : String) :
    ∀ n i, (∀ j, j ≤ i + n → ∃ m, attempts j = NetOutcome.exc m) →
      ∃ err, (sessionGetAux attempts url i n).2 = Except.error err := by
  intro n
  induction n with
  | zero =>
    intro i h
    rcases h i (by omega) with ⟨m, hm⟩
    simp only [sessionGetAux, hm]
    exact ⟨_, rfl⟩
  | succ n ih =>
    intro i h
    rcases h i (by omega) with ⟨m, hm⟩
    simpa [sessionGetAux, hm] using ih (i + 1) (fun j hj => h j (by omega))

/-- Six transient answers exhaust the retry budget: the session makes
six attempts separated by the exponential backoff sleeps and raises the
max-retries error naming the status of the last attempt. -/
theorem sessionGet_transient (attempts : Nat → NetOutcome) (url : String)
    (s : Nat → Nat) (er : Nat → Bool) (d : Nat → List (String × String))
    (hresp : ∀ i, i ≤ retry_total → attempts i = NetOutcome.resp (s i) (er i) (d i))
    (htrans : ∀ i, i ≤ retry_total → forcelist.contains (s i) = true) :
    sessionGet attempts url =
      ([Event.httpAttempt url, Event.sleep 200, Event.httpAttempt url,
        Event.sleep 400, Event.httpAttempt url, Event.sleep 800,
        Event.httpAttempt url, Event.sleep 1600, Event.httpAttempt url,
        Event.sleep 3200, Event.httpAttempt url],
       Except.error ("Max retries exceeded with url: " ++ url ++ " (Caused by " ++
         ("ResponseError(too many " ++ toString (s retry_total) ++ " error responses)") ++ ")")) := by
  have h0 := hresp 0 (by norm_num [retry_total])
  have h1 := hresp 1 (by norm_num [retry_total])
  have h2 := hresp 2 (by norm_num [retry_total])
  have h3 := hresp 3 (by norm_num [retry_total])
  have h4 := hresp 4 (by norm_num [retry_total])
  have h5 := hresp 5 (by norm_num [retry_total])
  have t0 : (s 0) ∈ forcelist := by simpa using htrans 0 (by norm_num [retry_total])
  have t1 : (s 1) ∈ forcelist := by simpa using htrans 1 (by norm_num [retry_total])
  have t2 : (s 2) ∈ forcelist := by simpa using htrans 2 (by norm_num [retry_total])
  have t3 : (s 3) ∈ forcelist := by simpa using htrans 3 (by norm_num [retry_total])
  have t4 : (s 4) ∈ forcelist := by simpa using htrans 4 (by norm_num [retry_total])
  have t5 : (s 5) ∈ forcelist := by simpa using htrans 5 (by norm_num [retry_total])
  have hrt : retry_total = 5 := rfl
  rw [hrt]
  simp [sessionGet, retry_total, sessionGetAux, h0, h1, h2, h3, h4, h5,
    t0, t1, t2, t3, t4, t5, backoff_wait, excReason]

/-- Once a key is in `seen`, the keep-first pass never emits a row with
that key again. -/
theorem drop_duplicates_cep_filter_of_seen (k : String) :
    ∀ (l : List Row) (seen : List String), k ∈ seen →
      (drop_duplicates_cep seen l).filter (fun r => r.cep == k) = [] := by
  intro l
  induction l with
  | nil => intro seen _; rfl
  | cons r rs ih =>
    intro seen hk
    rw [drop_duplicates_cep]
    split
    · exact ih seen hk
    · next hc =>
      have hnot : r.cep ∉ seen := by simpa using hc
      have hne : (r.cep == k) = false := by
        simp only [beq_eq_false_iff_ne, ne_eq]
        intro h
        exact hnot (h ▸ hk)
      simp only [List.filter_cons, hne]
      simp only [Bool.false_eq_true, if_false]
      exact ih (r.cep :: seen) (List.mem_cons_of_mem _ hk)

/-- The keep-first pass keeps, for each key not yet seen, exactly the
first row of the input carrying that key. -/
theorem drop_duplicates_cep_filter (k : String) :
    ∀ (l : List Row) (seen : List String), ¬ k ∈ seen →
      (drop_duplicates_cep seen l).filter (fun r => r.cep == k)
        = (l.find? (fun r => r.cep == k)).toList := by
  intro l
  induction l with
  | nil => intro seen _; rfl
  | cons r rs ih =>
    intro seen hk
    rw [drop_duplicates_cep]
    split
    · next hc =>
      have hmem : r.cep ∈ seen := by simpa using hc
      have hne : (r.cep == k) = false := by
        simp only [beq_eq_false_iff_ne, ne_eq]
        intro h
        exact hk (h ▸ hmem)
      rw [ih seen hk]
      simp [hne]
    · next hc =>
      by_cases hrk : r.cep = k
      · subst hrk
        simp [List.filter_cons,
          drop_duplicates_cep_filter_of_seen r.cep rs (r.cep :: seen)
            (List.mem_cons_self _ _)]
      · have hne : (r.cep == k) = false := by simp [hrk]
        have hk' : ¬ k ∈ r.cep :: seen := by
          intro h
          rcases List.mem_cons.mp h with h | h
          · exact hrk h.symm
          · exact hk h
        simp [List.filter_cons, hne, ih (r.cep :: seen) hk']

/-- A list with two distinct members has at least two distinct values
after deduplication. -/
theorem two_le_dedup_length {α : Type} [DecidableEq α] {l : List α} {a b : α}
    (ha : a ∈ l) (hb : b ∈ l) (hne : a ≠ b) : 2 ≤ l.dedup.length := by
  rcases h : l.dedup with _ | ⟨x, _ | ⟨y, t⟩⟩
  · exact absurd (List.mem_dedup.mpr ha) (by simp [h])
  · have ha' := List.mem_dedup.mpr ha
    have hb' := List.mem_dedup.mpr hb
    rw [h] at ha' hb'
    simp only [List.mem_singleton] at ha' hb'
    exact absurd (ha'.trans hb'.symm) hne
  · simp [h]


/-- The outcome's `status` field is always `"sucesso"` or `"erro"`. -/
theorem consultar_cep_status_total (attempts : Nat → NetOutcome) (cep : String) :
    ((consultar_cep attempts cep).2).status = "sucesso" ∨
    ((consultar_cep attempts cep).2).status = "erro" := by
  cases hv : _validar_input_cep cep with
  | none => rw [consultar_cep_eq_invalido attempts cep hv]; exact Or.inr rfl
  | some c =>
    rcases hs : sessionGet attempts ("https://viacep.com.br/ws/" ++ c ++ "/json/")
      with ⟨evs, r⟩
    cases r with
    | error err =>
      rw [consultar_cep_eq_conexao attempts cep c evs err hv hs]
      exact Or.inr rfl
    | ok resp =>
      rcases resp with ⟨st, er, d⟩
      by_cases h200 : st = 200
      · subst h200
        cases er
        · rw [consultar_cep_eq_sucesso attempts cep c evs d hv hs]
          exact Or.inl rfl
        · rw [consultar_cep_eq_inexistente attempts cep c evs d hv hs]
          exact Or.inr rfl
      · rw [consultar_cep_eq_http attempts cep c evs st er d hv hs h200]
        exact Or.inr rfl

/-!  ## Claim theorems  -/

/-- C1: the spec claims every invocation of `consultar_cep` (each retry
included) acquires rate-gate permission via `aguardar_permissao_api`
before the outbound call, bounding call starts to at least
`_INTERVALO_MINIMO` (1.05 s) apart across workers. The code never does:
no `consultar_cep` trace contains a rate-gate acquisition, and the only
pacing on the happy path for key "01001000" is a fixed 0.2 s sleep
(20 centiseconds), below the 105-centisecond minimum interval — so the
claimed spacing is not enforced by the lookup client. -/
theorem c1_rate_gate_never_acquired :
    (∀ attempts cep, ((consultar_cep attempts cep).1.countP Event.isRateGate) = 0) ∧
    (consultar_cep oracle200 "01001000").1 =
      [Event.sleep 20, Event.httpAttempt "https://viacep.com.br/ws/01001000/json/"] ∧
    20 < _INTERVALO_MINIMO := by
  refine ⟨?_, by decide, by decide⟩
  intro attempts cep
  rw [List.countP_eq_zero]
  intro e he
  rcases consultar_cep_events attempts cep e he with ⟨k, rfl⟩ | ⟨c, _, rfl⟩ <;>
    simp [Event.isRateGate]

/-- C2: the fetch-all step (`executor.map(consulta_fn, ceps)` in
`executar_pipeline`) returns one outcome per key, in input order, with
the i-th outcome's `cep` field equal to the i-th key. -/
theorem c2_fetch_preserves_length_and_keys (attempts : String → Nat → NetOutcome)
    (ceps : List String) :
    (pipeline_fetch attempts ceps).length = ceps.length ∧
    ∀ i (h : i < ceps.length),
      ((pipeline_fetch attempts ceps).get
          ⟨i, by simpa [pipeline_fetch] using h⟩).cep = ceps.get ⟨i, h⟩ := by
  constructor
  · simp [pipeline_fetch]
  · intro i h
    simp only [pipeline_fetch, List.get_map]
    exact consultar_cep_cep_eq _ _

/-- Witness for C2 at a concrete key list. -/
theorem c2_witness :
    ((pipeline_fetch (fun _ => oracle200) ["01001-000", "123"]).get
        ⟨1, by decide⟩).cep = "123" := by
  have h := (c2_fetch_preserves_length_and_keys (fun _ => oracle200)
    ["01001-000", "123"]).2 1 (by decide)
  exact h.trans rfl

/-- C3: `consultar_cep` is total — every outcome's state is `"sucesso"`
or `"erro"` — and when every attempt raises a transport exception the
result is a Failure outcome whose message is the connection-error
message, not a propagated exception. -/
theorem c3_total_and_transport_exceptions (attempts : Nat → NetOutcome) (cep : String) :
    (((consultar_cep attempts cep).2).status = "sucesso" ∨
     ((consultar_cep attempts cep).2).status = "erro") ∧
    (∀ c, _validar_input_cep cep = some c →
      (∀ j, j ≤ retry_total → ∃ m, attempts j = NetOutcome.exc m) →
      ((consultar_cep attempts cep).2).status = "erro" ∧
      strStartsWith "Erro de conexão: " ((consultar_cep attempts cep).2).mensagem = true) := by
  refine ⟨consultar_cep_status_total attempts cep, ?_⟩
  intro c hv hexc
  obtain ⟨err, herr⟩ := sessionGetAux_error_of_exc attempts
    ("https://viacep.com.br/ws/" ++ c ++ "/json/") retry_total 0
    (fun j hj => hexc j (by omega))
  rcases hs : sessionGet attempts ("https://viacep.com.br/ws/" ++ c ++ "/json/")
    with ⟨evs, r⟩
  have hr : r = Except.error err := by
    have h2 := congrArg Prod.snd hs
    simp only at h2
    rw [← h2]
    exact herr
  subst hr
  rw [consultar_cep_eq_conexao attempts cep c evs err hv hs]
  exact ⟨rfl, strStartsWith_append _ _⟩

/-- Witness for C3 with an always-timing-out transport. -/
theorem c3_witness :
    ((consultar_cep oracleTimeout "01001000").2).status = "erro" ∧
    strStartsWith "Erro de conexão: "
      ((consultar_cep oracleTimeout "01001000").2).mensagem = true := by
  exact (c3_total_and_transport_exceptions oracleTimeout "01001000").2
    "01001000" (by decide)
    (fun j _ => ⟨"HTTPSConnectionPool: Read timed out.", rfl⟩)

/-- C4: a malformed key performs no outbound attempt and yields the
invalid-format Failure outcome, which the error classifier places in the
invalid-format category (`CEP_INVALIDO`). -/
theorem c4_malformed_short_circuits (attempts : Nat → NetOutcome) (cep : String)
    (h : _validar_input_cep cep = none) :
    (consultar_cep attempts cep).1.countP Event.isHttpAttempt = 0 ∧
    (consultar_cep attempts cep).2 =
      ⟨cep, "erro", none,
       "Formato inválido: CEP deve conter exatamente 8 dígitos numéricos."⟩ ∧
    _categorizar_erro ((consultar_cep attempts cep).2).mensagem = "CEP_INVALIDO" := by
  rw [consultar_cep_eq_invalido attempts cep h]
  refine ⟨?_, rfl, ?_⟩
  · show List.countP Event.isHttpAttempt [Event.sleep 20] = 0
    decide
  · show _categorizar_erro
      "Formato inválido: CEP deve conter exatamente 8 dígitos numéricos." = "CEP_INVALIDO"
    decide

/-- Witness for C4 at the malformed key "123". -/
theorem c4_witness :
    _validar_input_cep "123" = none ∧
    (consultar_cep oracle200 "123").1.countP Event.isHttpAttempt = 0 ∧
    _categorizar_erro ((consultar_cep oracle200 "123").2).mensagem = "CEP_INVALIDO" := by
  have h := c4_malformed_short_circuits oracle200 "123" (by decide)
  exact ⟨by decide, h.1, h.2.2⟩

/-- C9: the outcome's `cep` field is always the raw input string, and
every outbound attempt uses the URL built from the normalized (cleaned)
key — normalization never leaks into the outcome's key field. -/
theorem c9_raw_key_preserved (attempts : Nat → NetOutcome) (cep : String) :
    ((consultar_cep attempts cep).2).cep = cep ∧
    (∀ c, _validar_input_cep cep = some c →
      ∀ e ∈ (consultar_cep attempts cep).1, Event.isHttpAttempt e = true →
        e = Event.httpAttempt ("https://viacep.com.br/ws/" ++ c ++ "/json/")) := by
  refine ⟨consultar_cep_cep_eq attempts cep, ?_⟩
  intro c hv e he hhttp
  rcases consultar_cep_events attempts cep e he with ⟨k, rfl⟩ | ⟨c2, hv2, rfl⟩
  · simp [Event.isHttpAttempt] at hhttp
  · have hcc : c2 = c := by
      have h := hv.symm.trans hv2
      injection h with h
      exact h.symm
    rw [hcc]

/-- Witness for C9 at the separator-formatted key "01001-000". -/
theorem c9_witness :
    ((consultar_cep oracle200 "01001-000").2).cep = "01001-000" ∧
    Event.httpAttempt "https://viacep.com.br/ws/01001000/json/" =
      Event.httpAttempt ("https://viacep.com.br/ws/" ++ "01001000" ++ "/json/") := by
  have h := c9_raw_key_preserved oracle200 "01001-000"
  exact ⟨h.1, h.2 "01001000" (by decide)
    (Event.httpAttempt "https://viacep.com.br/ws/01001000/json/")
    (by decide) (by decide)⟩

/-- C5 counterexample: the outcome for a key the service resolves as
not-found (body `erro` flag on a 200 response) carries the message
"CEP inválido ou inexistente.", and the classifier puts it in the
invalid-format category `CEP_INVALIDO`, not in the not-found category
`CEP_INEXISTENTE` as the claim asserts. -/
theorem c5_counterexample :
    ((consultar_cep oracleNotFound "99999999").2).mensagem =
      "CEP inválido ou inexistente." ∧
    _categorizar_erro ((consultar_cep oracleNotFound "99999999").2).mensagem =
      "CEP_INVALIDO" ∧
    ¬ _categorizar_erro ((consultar_cep oracleNotFound "99999999").2).mensagem =
      "CEP_INEXISTENTE" := by
  decide

/-- C5 (amended): the classifier matches case-insensitive substrings in
priority order with the invalid keyword first — so a message can only be
categorized not-found when it does not contain "inválido" — and since the
service's not-found message "CEP inválido ou inexistente." does contain
"inválido", a key resolved as not-found by the service yields category
`CEP_INVALIDO` (invalid-format), not `CEP_INEXISTENTE` (not-found). -/
theorem c5_notfound_categorized_invalid (attempts : Nat → NetOutcome)
    (cep c : String) (evs : List Event) (d : List (String × String))
    (hv : _validar_input_cep cep = some c)
    (hs : sessionGet attempts ("https://viacep.com.br/ws/" ++ c ++ "/json/") =
      (evs, Except.ok ⟨200, true, d⟩)) :
    (∀ m, _categorizar_erro m = "CEP_INEXISTENTE" →
      strContainsSub "inválido" (lowerStr m) = false) ∧
    ((consultar_cep attempts cep).2).mensagem = "CEP inválido ou inexistente." ∧
    _categorizar_erro ((consultar_cep attempts cep).2).mensagem = "CEP_INVALIDO" := by
  refine ⟨?_, ?_⟩
  · intro m h
    cases hb : strContainsSub "inválido" (lowerStr m)
    · rfl
    · rw [_categorizar_erro, if_pos hb] at h
      exact absurd h (by decide)
  · rw [consultar_cep_eq_inexistente attempts cep c evs d hv hs]
    refine ⟨rfl, ?_⟩
    show _categorizar_erro "CEP inválido ou inexistente." = "CEP_INVALIDO"
    decide

/-- Witness for C5's amended theorem with a concrete not-found lookup. -/
theorem c5_witness :
    ((consultar_cep oracleNotFound "99999999").2).mensagem =
      "CEP inválido ou inexistente." ∧
    _categorizar_erro ((consultar_cep oracleNotFound "99999999").2).mensagem =
      "CEP_INVALIDO" := by
  exact (c5_notfound_categorized_invalid oracleNotFound "99999999" "99999999"
    [Event.httpAttempt "https://viacep.com.br/ws/99999999/json/"] []
    (by decide) (by rfl)).2

/-- Two success rows with the same key but different street values. -/
def rowsDup : List Row :=
  [⟨"01001000", ["Praça da Sé"]⟩, ⟨"01001000", ["Rua B"]⟩]

/-- C6: with a duplicated key in the input, the validator keeps exactly
one row for that key — the first occurrence, unchanged (never both rows,
never a merge) — and when two duplicate rows disagree on the non-key
columns, the inconsistency warning for that key is emitted. -/
theorem c6_dedup_keep_first (df : List Row) (k : String)
    (hdup : 2 ≤ df.countP (fun r => r.cep == k)) :
    ((_validar_ceps_duplicados df).1.filter (fun r => r.cep == k)
        = (df.find? (fun r => r.cep == k)).toList) ∧
    (∀ r₁ r₂, r₁ ∈ df → r₂ ∈ df → r₁.cep = k → r₂.cep = k →
      r₁.resto ≠ r₂.resto →
      ("[ALERTA] CEP " ++ k ++
        " possui dados inconsistentes em múltiplos registros. Mantendo primeiro.")
        ∈ (_validar_ceps_duplicados df).2) := by
  constructor
  · show (drop_duplicates_cep [] df).filter (fun r => r.cep == k)
      = (df.find? (fun r => r.cep == k)).toList
    exact drop_duplicates_cep_filter k df [] (by simp)
  · intro r₁ r₂ h₁ h₂ hk₁ hk₂ hne
    have hg₁ : r₁ ∈ ceps_duplicados df := by
      rw [ceps_duplicados, List.mem_filter]
      exact ⟨h₁, by simpa [hk₁] using hdup⟩
    have hg₂ : r₂ ∈ ceps_duplicados df := by
      rw [ceps_duplicados, List.mem_filter]
      exact ⟨h₂, by simpa [hk₂] using hdup⟩
    have hmsg : ("[ALERTA] CEP " ++ k ++
        " possui dados inconsistentes em múltiplos registros. Mantendo primeiro.")
        ∈ alertas_inconsistencia df := by
      rw [alertas_inconsistencia]
      apply List.mem_filterMap.mpr
      refine ⟨k, ?_, ?_⟩
      · exact List.mem_dedup.mpr (List.mem_map.mpr ⟨r₁, hg₁, hk₁⟩)
      · have hcond : 2 ≤ (((ceps_duplicados df).filter
            (fun r => r.cep == k)).map Row.resto).dedup.length := by
          apply two_le_dedup_length (a := r₁.resto) (b := r₂.resto)
          · exact List.mem_map.mpr ⟨r₁, List.mem_filter.mpr ⟨hg₁, by simp [hk₁]⟩, rfl⟩
          · exact List.mem_map.mpr ⟨r₂, List.mem_filter.mpr ⟨hg₂, by simp [hk₂]⟩, rfl⟩
          · exact hne
        simp only [hcond, if_pos]
    show _ ∈ alertas_inconsistencia df ++ _
    exact List.mem_append_left _ hmsg

/-- Witness for C6 at two conflicting duplicates of key "01001000". -/
theorem c6_witness :
    ((_validar_ceps_duplicados rowsDup).1.filter (fun r => r.cep == "01001000")
        = (rowsDup.find? (fun r => r.cep == "01001000")).toList) ∧
    ("[ALERTA] CEP " ++ "01001000" ++
      " possui dados inconsistentes em múltiplos registros. Mantendo primeiro.")
      ∈ (_validar_ceps_duplicados rowsDup).2 := by
  have h := c6_dedup_keep_first rowsDup "01001000" (by decide)
  refine ⟨h.1, ?_⟩
  exact h.2 ⟨"01001000", ["Praça da Sé"]⟩ ⟨"01001000", ["Rua B"]⟩
    (by decide) (by decide) rfl rfl (by decide)

/-- Unfolding of `inserir_dados` when the appended batch satisfies the
UNIQUE constraint on `cep`. -/
theorem inserir_dados_eq (enderecos df : List Row)
    (h : ((df.filter (fun r => !(enderecos.map Row.cep).contains r.cep)).map
      Row.cep).Nodup) :
    inserir_dados enderecos df = Except.ok
      (enderecos ++ df.filter (fun r => !(enderecos.map Row.cep).contains r.cep),
       df.length -
         (df.filter (fun r => !(enderecos.map Row.cep).contains r.cep)).length) := by
  unfold inserir_dados
  rw [if_pos h]

/-- C7: on an existing schema, `inserir_dados` appends only rows whose
key is absent, reports (rather than fails on) the skipped count, and a
second run with the identical validated set leaves the stored table —
hence the total stored-row count — unchanged, reporting all rows as
skipped. -/
theorem c7_insert_idempotent (enderecos df : List Row)
    (hnodup : (df.map Row.cep).Nodup) :
    ∃ tabela n,
      inserir_dados enderecos df = Except.ok (tabela, n) ∧
      inserir_dados tabela df = Except.ok (tabela, df.length) ∧
      tabela.length = enderecos.length +
        (df.filter (fun r => !(enderecos.map Row.cep).contains r.cep)).length := by
  have hsub : ((df.filter (fun r => !(enderecos.map Row.cep).contains r.cep)).map
      Row.cep).Sublist (df.map Row.cep) :=
    (List.filter_sublist df).map Row.cep
  have hnd := hnodup.sublist hsub
  refine ⟨enderecos ++ df.filter (fun r => !(enderecos.map Row.cep).contains r.cep),
    df.length -
      (df.filter (fun r => !(enderecos.map Row.cep).contains r.cep)).length,
    inserir_dados_eq enderecos df hnd, ?_, by simp⟩
  have hnil : df.filter (fun r =>
      !(((enderecos ++ df.filter (fun r => !(enderecos.map Row.cep).contains r.cep)).map
        Row.cep).contains r.cep)) = [] := by
    rw [List.filter_eq_nil_iff]
    intro r hr
    simp only [Bool.not_eq_true', Bool.not_eq_false]
    have hmem2 : r.cep ∈ (enderecos ++ df.filter (fun r =>
        !(enderecos.map Row.cep).contains r.cep)).map Row.cep := by
      rw [List.map_append, List.mem_append]
      by_cases hmem : r.cep ∈ enderecos.map Row.cep
      · exact Or.inl hmem
      · exact Or.inr (List.mem_map.mpr
          ⟨r, List.mem_filter.mpr ⟨hr, by simp [hmem]⟩, rfl⟩)
    simpa using hmem2
  rw [inserir_dados_eq _ df (by rw [hnil]; exact List.nodup_nil), hnil]
  simp

/-- Concrete validated batch used by the C7 witness. -/
def dfChaves : List Row :=
  [⟨"01001000", ["Praça da Sé"]⟩, ⟨"99999999", ["Rua B"]⟩]

/-- Witness for C7 at a concrete batch against an empty table. -/
theorem c7_witness :
    ∃ tabela n,
      inserir_dados [] dfChaves = Except.ok (tabela, n) ∧
      inserir_dados tabela dfChaves = Except.ok (tabela, dfChaves.length) ∧
      tabela.length = List.length ([] : List Row) +
        (dfChaves.filter (fun r =>
          !(([] : List Row).map Row.cep).contains r.cep)).length := by
  exact c7_insert_idempotent [] dfChaves (by decide)

/-- C8: when every attempt of an outbound call receives a transient
status (429, 500, 502, 503, 504), the session retries five extra times
under the exponential backoff waits 2 s, 4 s, 8 s, 16 s, 32 s (six
attempts in total), and `consultar_cep` resolves a Failure outcome whose
message carries the last observed HTTP status (inside the caught
max-retries connection error). -/
theorem c8_retry_exhaustion (attempts : Nat → NetOutcome) (cep c : String)
    (s : Nat → Nat) (er : Nat → Bool) (d : Nat → List (String × String))
    (hv : _validar_input_cep cep = some c)
    (hresp : ∀ i, i ≤ retry_total → attempts i = NetOutcome.resp (s i) (er i) (d i))
    (htrans : ∀ i, i ≤ retry_total → forcelist.contains (s i) = true) :
    (consultar_cep attempts cep).1 =
      [Event.sleep 20,
       Event.httpAttempt ("https://viacep.com.br/ws/" ++ c ++ "/json/"),
       Event.sleep 200,
       Event.httpAttempt ("https://viacep.com.br/ws/" ++ c ++ "/json/"),
       Event.sleep 400,
       Event.httpAttempt ("https://viacep.com.br/ws/" ++ c ++ "/json/"),
       Event.sleep 800,
       Event.httpAttempt ("https://viacep.com.br/ws/" ++ c ++ "/json/"),
       Event.sleep 1600,
       Event.httpAttempt ("https://viacep.com.br/ws/" ++ c ++ "/json/"),
       Event.sleep 3200,
       Event.httpAttempt ("https://viacep.com.br/ws/" ++ c ++ "/json/")] ∧
    ((consultar_cep attempts cep).2).status = "erro" ∧
    ((consultar_cep attempts cep).2).mensagem =
      "Erro de conexão: " ++ ("Max retries exceeded with url: " ++
        ("https://viacep.com.br/ws/" ++ c ++ "/json/") ++ " (Caused by " ++
        ("ResponseError(too many " ++ toString (s retry_total) ++
          " error responses)") ++ ")") ∧
    strContainsSub (toString (s retry_total))
      ((consultar_cep attempts cep).2).mensagem = true := by
  have hs := sessionGet_transient attempts
    ("https://viacep.com.br/ws/" ++ c ++ "/json/") s er d hresp htrans
  rw [consultar_cep_eq_conexao attempts cep c _ _ hv hs]
  refine ⟨rfl, rfl, rfl, ?_⟩
  show strContainsSub (toString (s retry_total))
    ("Erro de conexão: " ++ ("Max retries exceeded with url: " ++
      ("https://viacep.com.br/ws/" ++ c ++ "/json/") ++ " (Caused by " ++
      ("ResponseError(too many " ++ toString (s retry_total) ++
        " error responses)") ++ ")")) = true
  simp only [strContainsSub, String.data_append, List.append_assoc]
  apply listContainsSub_append_left
  apply listContainsSub_append_left
  apply listContainsSub_append_left
  apply listContainsSub_append_left
  apply listContainsSub_append_left
  apply listContainsSub_append_left
  apply listContainsSub_append_left
  exact listContainsSub_of_startsWith _ _ (listStartsWith_append _ _)

/-- Witness for C8 with a server answering 500 on every attempt. -/
theorem c8_witness :
    ((consultar_cep oracle500 "01001000").2).status = "erro" ∧
    strContainsSub (toString (500 : Nat))
      ((consultar_cep oracle500 "01001000").2).mensagem = true := by
  have h := c8_retry_exhaustion oracle500 "01001000" "01001000"
    (fun _ => 500) (fun _ => false) (fun _ => [])
    (by decide) (fun i _ => rfl) (fun i _ => rfl)
  exact ⟨h.2.1, h.2.2.2⟩

/-- C10: `executar_pipeline` validates its inputs before any other work —
a sample size that is non-positive or exceeds 1,000,000 raises a
ValueError, a missing input file raises a FileNotFoundError, and in both
cases no storage or network effect happens (the effect trace is empty);
with valid inputs the validation passes silently. -/
theorem c10_entry_validation (n : Int) (caminho : String) (arquivo : Bool)
    (ceps : List String) (attempts : String → Nat → NetOutcome) :
    ((n ≤ 0 ∨ 1000000 < n) →
      ∃ m, executar_pipeline n caminho arquivo ceps attempts =
        ([], Except.error (EtlErro.valueError m))) ∧
    (0 < n → n ≤ 1000000 → arquivo = false →
      executar_pipeline n caminho arquivo ceps attempts =
        ([], Except.error (EtlErro.fileNotFoundError
          ("Arquivo não encontrado: " ++ caminho)))) ∧
    (0 < n → n ≤ 1000000 → arquivo = true →
      _validar_entrada n caminho arquivo = Except.ok ()) := by
  refine ⟨?_, ?_, ?_⟩
  · rintro (hle | hgt)
    · refine ⟨"tamanho_amostra deve ser > 0, recebido: " ++ toString n, ?_⟩
      simp [executar_pipeline, _validar_entrada, hle]
    · refine ⟨"tamanho_amostra muito grande (máx: 1000000), recebido: " ++ toString n, ?_⟩
      have h0 : ¬ n ≤ 0 := by omega
      simp [executar_pipeline, _validar_entrada, h0, hgt]
  · intro h1 h2 h3
    have h0 : ¬ n ≤ 0 := by omega
    have hh : ¬ 1000000 < n := by omega
    subst h3
    simp [executar_pipeline, _validar_entrada, h0, hh]
  · intro h1 h2 h3
    have h0 : ¬ n ≤ 0 := by omega
    have hh : ¬ 1000000 < n := by omega
    subst h3
    simp [_validar_entrada, h0, hh]

/-- Witness for C10 at sample sizes 0 and 5. -/
theorem c10_witness :
    (∃ m, executar_pipeline 0 "data/input/cep.tsv.zip" false []
        (fun _ => oracle200) = ([], Except.error (EtlErro.valueError m))) ∧
    executar_pipeline 5 "data/input/cep.tsv.zip" false [] (fun _ => oracle200) =
      ([], Except.error (EtlErro.fileNotFoundError
        ("Arquivo não encontrado: " ++ "data/input/cep.tsv.zip"))) ∧
    _validar_entrada 5 "data/input/cep.tsv.zip" true = Except.ok () := by
  refine ⟨?_, ?_, ?_⟩
  · exact (c10_entry_validation 0 "data/input/cep.tsv.zip" false []
      (fun _ => oracle200)).1 (Or.inl (by norm_num))
  · exact (c10_entry_validation 5 "data/input/cep.tsv.zip" false []
      (fun _ => oracle200)).2.1 (by norm_num) (by norm_num) rfl
  · exact (c10_entry_validation 5 "data/input/cep.tsv.zip" true []
      (fun _ => oracle200)).2.2 (by norm_num) (by norm_num) rfl
